import Mathlib

/-
Verification development for the Youtube-Downloader frontend.

The embedding covers:
  - src/frontend/js/config.js      (CONFIG constants)
  - src/frontend2/js/api.js        (API.get, API.post, API.startDownload, ProgressTracker)
  - src/frontend2/js/ui.js         (UI.isValidUrl)
  - src/unnamed/part_001           (App.trackProgress, App.fetchVideoInfo,
                                    the new-download button handler)

The ProgressTracker is embedded as a small-step event semantics over an
explicit tracker state, faithful to the single-threaded JavaScript execution
model: timer firings and promise resolutions are events chosen by the
environment; the synchronous code run at each event is translated directly
from the source.  Two source facts drive the semantics:
  - setInterval re-fires on the fixed interval regardless of whether the
    async checkProgress started by a previous firing has resolved, so the
    number of in-flight getStatus calls is a counter, not a flag;
  - the continuation of checkProgress after its await does not re-read
    isTracking, so a resolution event runs the classification code
    unconditionally whenever a poll is in flight.
-/

namespace Ytdl

/-- CONFIG.PROGRESS_POLL_INTERVAL from src/frontend/js/config.js line 23. -/
def PROGRESS_POLL_INTERVAL : Nat := 1000

/-- CONFIG.MAX_URL_LENGTH from src/frontend/js/config.js line 29. -/
def MAX_URL_LENGTH : Nat := 2048

/-- CONFIG.DOWNLOAD_TYPES.VIDEO from src/frontend/js/config.js line 33. -/
def DOWNLOAD_TYPE_VIDEO : String := "video"

/-- CONFIG.DOWNLOAD_TYPES.AUDIO from src/frontend/js/config.js line 34. -/
def DOWNLOAD_TYPE_AUDIO : String := "audio"

/-- CONFIG.DEFAULT_AUDIO_FORMAT from src/frontend/js/config.js line 39. -/
def DEFAULT_AUDIO_FORMAT : String := "mp3"

/-- CONFIG.DEFAULT_VIDEO_QUALITY from src/frontend/js/config.js line 38. -/
def DEFAULT_VIDEO_QUALITY : String := "best"

/-- JavaScript truthy-or on an optional string field, as in the source
pattern progress.error || defaultText: an absent field and the empty string
are both falsy and select the default. -/
def jsOr (s : Option String) (d : String) : String :=
  match s with
  | some v => if v = "" then d else v
  | none => d

/-- The fields of a progress StatusReport that the tracker reads:
`progress.status`, `progress.error` (absent modelled as none) and
`progress.filename`. -/
structure StatusReport where
  status : String
  error : Option String
  filename : Option String
  deriving DecidableEq

/-- Outcome of one getStatus network call: a parsed report, or a rejected
promise carrying an error message (the transport failure). -/
inductive PollResult where
  | ok (progress : StatusReport)
  | transportFail (message : String)
  deriving DecidableEq

/-- A callback invocation emitted by the tracker: onUpdate, onComplete or
onError, from src/frontend2/js/api.js lines 150-162. -/
inductive CallbackEvent where
  | update (progress : StatusReport)
  | complete (progress : StatusReport)
  | failure (message : String)
  deriving DecidableEq

/-- Whether a callback is terminal (onComplete or onError) as opposed to an
intermediate onUpdate. -/
def CallbackEvent.isTerminal : CallbackEvent → Bool
  | .update _ => false
  | .complete _ => true
  | .failure _ => true

/-- The mutable state of one ProgressTracker instance
(src/frontend2/js/api.js lines 117-125): whether this.interval is non-null,
the this.isTracking flag, and the number of getStatus calls currently in
flight (awaits of checkProgress that have been issued but not yet resolved).
The downloadId and the three callbacks are fixed at construction and carried
implicitly. -/
structure TrackerState where
  intervalSet : Bool
  isTracking : Bool
  inFlight : Nat
  deriving DecidableEq

/-- Tracker state right after the constructor: interval null, not tracking,
no poll in flight. -/
def initialTracker : TrackerState :=
  { intervalSet := false, isTracking := false, inFlight := 0 }

/-- ProgressTracker.stop (src/frontend2/js/api.js lines 138-144): clear the
interval if present and reset isTracking.  It does not touch any in-flight
getStatus call. -/
def stop (s : TrackerState) : TrackerState :=
  { s with intervalSet := false, isTracking := false }

/-- ProgressTracker.start (src/frontend2/js/api.js lines 127-136): no-op if
already tracking; otherwise set isTracking, synchronously begin one
checkProgress (which issues a getStatus call and suspends at its await) and
install the repeating interval. -/
def start (s : TrackerState) : TrackerState :=
  if s.isTracking then s
  else { intervalSet := true, isTracking := true, inFlight := s.inFlight + 1 }

/-- The continuation of checkProgress after its await resolves
(src/frontend2/js/api.js lines 148-162), run on the state with the resolved
call already removed from the in-flight count.  Classification of the result:
completed calls stop then onComplete; error calls stop then onError with the
report error field or the default text; any other status calls onUpdate and
leaves the state, hence the interval, untouched; a rejected getStatus promise
is caught, stop is called, and onError receives the error message.  Note the
continuation never re-reads isTracking. -/
def checkProgressResolve (s : TrackerState) (r : PollResult) :
    TrackerState × CallbackEvent :=
  match r with
  | .ok progress =>
      if progress.status = "completed" then
        (stop s, .complete progress)
      else if progress.status = "error" then
        (stop s, .failure (jsOr progress.error "Download failed"))
      else
        (s, .update progress)
  | .transportFail message => (stop s, .failure message)

/-- Events that can act on one tracker instance: the interval timer fires
(running the synchronous prefix of checkProgress, which issues a getStatus
call), an in-flight getStatus call resolves with some result, or the owner
calls stop or start. -/
inductive Ev where
  | timerFire
  | pollResolve (r : PollResult)
  | stopCall
  | startCall
  deriving DecidableEq

/-- One step of the tracker semantics.  Returns none when the event cannot
occur in the given state: the timer cannot fire once the interval has been
cleared, and no getStatus call can resolve when none is in flight.  A timer
firing issues a new poll unconditionally (setInterval does not wait for the
previous async checkProgress); a resolution removes one in-flight call and
runs the classification continuation, possibly emitting a callback. -/
def step (s : TrackerState) : Ev → Option (TrackerState × Option CallbackEvent)
  | .timerFire =>
      if s.intervalSet then some ({ s with inFlight := s.inFlight + 1 }, none)
      else none
  | .pollResolve r =>
      match s.inFlight with
      | 0 => none
      | n + 1 =>
          let sc := checkProgressResolve { s with inFlight := n } r
          some (sc.1, some sc.2)
  | .stopCall => some (stop s, none)
  | .startCall => some (start s, none)

/-- Total version of step: an event that cannot occur leaves the state
unchanged and emits nothing. -/
def stepSkip (s : TrackerState) (e : Ev) : TrackerState × Option CallbackEvent :=
  (step s e).getD (s, none)

/-- Run a sequence of events from a state, returning the final state and the
trace of emitted callbacks in order. -/
def runFrom (s : TrackerState) : List Ev → TrackerState × List CallbackEvent
  | [] => (s, [])
  | e :: evs =>
      let p := stepSkip s e
      let rest := runFrom p.1 evs
      (rest.1, p.2.toList ++ rest.2)

/-- The list of states reached after each event of a run. -/
def statesFrom (s : TrackerState) : List Ev → List TrackerState
  | [] => []
  | e :: evs =>
      let p := stepSkip s e
      p.1 :: statesFrom p.1 evs

/-- The callbacks emitted strictly after the first stopCall of the event
sequence has returned. -/
def callbacksAfterStop (s : TrackerState) : List Ev → List CallbackEvent
  | [] => []
  | e :: evs =>
      let p := stepSkip s e
      if e = Ev.stopCall then (runFrom p.1 evs).2
      else callbacksAfterStop p.1 evs

/-- Number of terminal callbacks (onComplete or onError) in a trace. -/
def terminalCount (trace : List CallbackEvent) : Nat :=
  (trace.filter (fun c => c.isTerminal)).length

/-- Single-flight discipline on a run: the timer only fires at instants where
no getStatus call is in flight (every poll resolves before the next interval
tick). -/
def noOverlapFrom (s : TrackerState) : List Ev → Bool
  | [] => true
  | e :: evs =>
      (if e = Ev.timerFire then decide (s.inFlight = 0) else true)
        && noOverlapFrom (stepSkip s e).1 evs

/-- Tracker state right after start has been called on a fresh instance: the
first poll is in flight and the interval is installed. -/
def startedTracker : TrackerState := start initialTracker

/-- A concrete completed report used by concrete runs. -/
def reportCompleted : StatusReport :=
  { status := "completed", error := none, filename := some "x.mp4" }

/-- A concrete downloading report used by concrete runs. -/
def reportDownloading : StatusReport :=
  { status := "downloading", error := none, filename := none }

/-- A concrete error report used by concrete runs. -/
def reportErrored : StatusReport :=
  { status := "error", error := some "disk full", filename := none }

/-- App-level model for the controller in src/unnamed/part_001.  The head of
trackers is the ProgressTracker instance currently referenced by
state.progressTracker (empty list models a null reference); the tail holds
superseded instances, which still exist on the heap and whose in-flight
polls can still resolve.  uiProgressVisible stands for the progress section
of the UI toggled by UI.showProgress and UI.resetDownloadUI. -/
structure AppModel where
  trackers : List TrackerState
  uiProgressVisible : Bool
  deriving DecidableEq

/-- The App before any download was dispatched: state.progressTracker is
null. -/
def initialApp : AppModel := { trackers := [], uiProgressVisible := false }

/-- App.trackProgress (src/unnamed/part_001 lines 218-245): if
state.progressTracker is non-null, call its stop; then construct a fresh
ProgressTracker bound to the current download id, assign it to
state.progressTracker, and call its start. -/
def trackProgress (a : AppModel) : AppModel :=
  let stopped :=
    match a.trackers with
    | [] => []
    | t :: rest => stop t :: rest
  { a with trackers := start initialTracker :: stopped, uiProgressVisible := true }

/-- The new-download button handler (src/unnamed/part_001 lines 98-101): it
calls UI.resetDownloadUI and UI.switchTab only; state.progressTracker is not
read, stopped or replaced. -/
def newDownloadClickHandler (a : AppModel) : AppModel :=
  { a with uiProgressVisible := false }

/-- Apply f to the tracker at position i, leaving the list unchanged when i
is out of range. -/
def modifyAt (f : TrackerState → TrackerState) : Nat → List TrackerState → List TrackerState
  | _, [] => []
  | 0, t :: rest => f t :: rest
  | n + 1, t :: rest => t :: modifyAt f n rest

/-- App-level events: a successful dispatch of App.startDownload (whose
handler calls App.trackProgress), a click on the new-download button, and the
environment events of any tracker instance, live or superseded; start and
stop calls on trackers happen only inside App.trackProgress, which is the
only code path holding a reference to them. -/
inductive AppEv where
  | dispatchSuccess
  | newDownloadClick
  | timerFire (i : Nat)
  | pollResolve (i : Nat) (r : PollResult)
  deriving DecidableEq

/-- One step of the App-level semantics. -/
def appStep (a : AppModel) : AppEv → AppModel
  | .dispatchSuccess => trackProgress a
  | .newDownloadClick => newDownloadClickHandler a
  | .timerFire i =>
      { a with trackers := modifyAt (fun t => (stepSkip t Ev.timerFire).1) i a.trackers }
  | .pollResolve i r =>
      { a with trackers := modifyAt (fun t => (stepSkip t (Ev.pollResolve r)).1) i a.trackers }

/-- Run a sequence of App-level events from the initial App. -/
def appRun (evs : List AppEv) : AppModel := evs.foldl appStep initialApp

/-- Number of tracker instances whose repeating interval is installed, that
is, the number of trackers actively polling. -/
def pollingCount (a : AppModel) : Nat :=
  (a.trackers.filter fun t => t.intervalSet).length

/-- The isTracking and interval flags of the tracker currently referenced by
state.progressTracker, when one exists. -/
def headTracking (a : AppModel) : Option Bool :=
  a.trackers.head?.map fun t => t.isTracking && t.intervalSet

/-- The body handed to response.json: either it is not valid JSON (the parse
rejects), or it is a JSON object whose optional error field is recorded. -/
inductive ResponseBody where
  | parseFail
  | obj (error : Option String)
  deriving DecidableEq

/-- A transport response as the gateway sees it: the response.ok flag and the
body. -/
structure Response where
  ok : Bool
  body : ResponseBody
  deriving DecidableEq

/-- Outcome of an API.get or API.post call: the promise resolves with the
parsed body, or rejects with an exception carrying a message. -/
inductive ApiOutcome where
  | success (body : ResponseBody)
  | failure (message : String)
  deriving DecidableEq

/-- API.get (src/frontend2/js/api.js lines 9-23).  On a non-ok response the
code awaits response.json and throws an Error whose message is the parsed
error field or the text Request failed; when response.json itself rejects
(body not valid JSON), that exception propagates through the catch block,
which only logs and rethrows.  parseMsg abstracts the environment-supplied
message of the JSON parse exception. -/
def apiGet (parseMsg : String) (resp : Response) : ApiOutcome :=
  if resp.ok then
    match resp.body with
    | .parseFail => .failure parseMsg
    | .obj e => .success (.obj e)
  else
    match resp.body with
    | .parseFail => .failure parseMsg
    | .obj e => .failure (jsOr e "Request failed")

/-- API.post (src/frontend2/js/api.js lines 28-48): identical error handling
to API.get; the request body does not influence the error path. -/
def apiPost (parseMsg : String) (resp : Response) : ApiOutcome :=
  if resp.ok then
    match resp.body with
    | .parseFail => .failure parseMsg
    | .obj e => .success (.obj e)
  else
    match resp.body with
    | .parseFail => .failure parseMsg
    | .obj e => .failure (jsOr e "Request failed")

/-- The object literal built by API.startDownload (src/frontend2/js/api.js
lines 60-69): quality is the requested quality for the video type and
undefined (none) otherwise; audio_format is CONFIG.DEFAULT_AUDIO_FORMAT for
the audio type and undefined otherwise. -/
structure DownloadRequestBody where
  url : String
  type : String
  quality : Option String
  audio_format : Option String
  deriving DecidableEq

/-- Build the request body exactly as API.startDownload does. -/
def startDownloadBody (url ty quality : String) : DownloadRequestBody :=
  { url := url, type := ty,
    quality := if ty = DOWNLOAD_TYPE_VIDEO then some quality else none,
    audio_format := if ty = DOWNLOAD_TYPE_AUDIO then some DEFAULT_AUDIO_FORMAT else none }

/-- JSON.stringify applied to the body object: a property whose value is
undefined is omitted from the serialized object entirely, so the result is
the ordered list of key-value pairs that actually appear on the wire. -/
def stringifyBody (b : DownloadRequestBody) : List (String × String) :=
  [("url", b.url), ("type", b.type)]
    ++ (match b.quality with | some q => [("quality", q)] | none => [])
    ++ (match b.audio_format with | some f => [("audio_format", f)] | none => [])

/-- UI.isValidUrl (src/frontend2/js/ui.js lines 359-366), parametrized by
the predicate telling whether the URL constructor accepts the string: the
expression new URL(url) throws exactly when parses url = false, which the
try/catch turns into the result false; otherwise the function returns the
comparison of the string length with CONFIG.MAX_URL_LENGTH. -/
def isValidUrl (parses : String → Bool) (url : String) : Bool :=
  if parses url then decide (url.length ≤ MAX_URL_LENGTH) else false

/-- JavaScript String.prototype.trim: strip whitespace from both ends. -/
def jsTrim (s : String) : String :=
  ⟨((s.data.dropWhile Char.isWhitespace).reverse.dropWhile Char.isWhitespace).reverse⟩

/-- What App.fetchVideoInfo does before any network activity: either it
shows a toast notice and returns early, or it proceeds to the
API.getVideoInfo gateway call with the given url. -/
inductive FetchInfoAction where
  | notice (message : String)
  | gatewayCall (url : String)
  deriving DecidableEq

/-- Whether the action performs a RequestGateway network call. -/
def FetchInfoAction.callsGateway : FetchInfoAction → Bool
  | .notice _ => false
  | .gatewayCall _ => true

/-- The dispatch decision of App.fetchVideoInfo (src/unnamed/part_001 lines
150-168): read and trim the input field; an empty trimmed string (falsy)
shows the please-enter toast and returns; a string rejected by UI.isValidUrl
shows the invalid-url toast and returns; otherwise the handler proceeds to
the API.getVideoInfo network call with the trimmed url. -/
def fetchVideoInfo (parses : String → Bool) (rawInput : String) : FetchInfoAction :=
  let url := jsTrim rawInput
  if url = "" then .notice "Please enter a URL"
  else if !(isValidUrl parses url) then .notice "Please enter a valid URL"
  else .gatewayCall url

/-- The everywhere-false parse predicate, modelling an environment in which
the URL constructor rejects the given input. -/
def noParse : String → Bool := fun _ => false

/-- All states of a list are quiet: interval cleared and no more than B
getStatus calls in flight. -/
def allQuiet (B : Nat) (ts : List TrackerState) : Bool :=
  ts.all fun t => !t.intervalSet && decide (t.inFlight ≤ B)

theorem stop_intervalSet (s : TrackerState) : (stop s).intervalSet = false := rfl

theorem stop_isTracking (s : TrackerState) : (stop s).isTracking = false := rfl

theorem stop_inFlight (s : TrackerState) : (stop s).inFlight = s.inFlight := rfl

/-- Each resolution of a poll either emits a terminal callback and lands in
the stopped state, or emits an intermediate update and leaves the state
untouched. -/
theorem checkProgressResolve_cases (s : TrackerState) (r : PollResult) :
    ((checkProgressResolve s r).2.isTerminal = true
        ∧ (checkProgressResolve s r).1 = stop s)
    ∨ ((checkProgressResolve s r).2.isTerminal = false
        ∧ (checkProgressResolve s r).1 = s) := by
  cases r with
  | ok progress =>
      by_cases h1 : progress.status = "completed"
      · left
        simp [checkProgressResolve, h1, CallbackEvent.isTerminal]
      · by_cases h2 : progress.status = "error"
        · left
          simp [checkProgressResolve, h1, h2, CallbackEvent.isTerminal]
        · right
          simp [checkProgressResolve, h1, h2, CallbackEvent.isTerminal]
  | transportFail m =>
      left
      simp [checkProgressResolve, CallbackEvent.isTerminal]

/-- A dead tracker (no poll in flight, interval cleared) emits nothing for
the rest of any run that does not call start again. -/
theorem runFrom_dead (evs : List Ev) : ∀ s : TrackerState,
    s.inFlight = 0 → s.intervalSet = false → Ev.startCall ∉ evs →
    (runFrom s evs).2 = [] := by
  induction evs with
  | nil =>
      intro s _ _ _
      rfl
  | cons e evs ih =>
      intro s h0 hI hmem
      rw [List.mem_cons] at hmem
      push_neg at hmem
      obtain ⟨hne, hmem⟩ := hmem
      cases e with
      | timerFire =>
          simp only [runFrom, stepSkip, step, hI, Bool.false_eq_true, if_false,
            Option.getD_none, Option.toList_none, List.nil_append]
          exact ih s h0 hI hmem
      | pollResolve r =>
          simp only [runFrom, stepSkip, step, h0, Option.getD_none,
            Option.toList_none, List.nil_append]
          exact ih s h0 hI hmem
      | stopCall =>
          simp only [runFrom, stepSkip, step, Option.getD_some,
            Option.toList_none, List.nil_append]
          exact ih (stop s) (by rw [stop_inFlight]; exact h0) rfl hmem
      | startCall =>
          exact absurd rfl hne

/-- Counting terminal callbacks through a cons. -/
theorem terminalCount_cons (c : CallbackEvent) (tr : List CallbackEvent) :
    terminalCount (c :: tr)
      = (if c.isTerminal then 1 else 0) + terminalCount tr := by
  by_cases h : c.isTerminal
  · simp [terminalCount, List.filter_cons, h, Nat.add_comm]
  · simp [terminalCount, List.filter_cons, h]

/-- Under the single-flight discipline, a run of a tracker that has at most
one poll in flight and is never restarted emits at most one terminal
callback. -/
theorem runFrom_singleFlight_terminal (evs : List Ev) : ∀ s : TrackerState,
    Ev.startCall ∉ evs → s.inFlight ≤ 1 → noOverlapFrom s evs = true →
    terminalCount (runFrom s evs).2 ≤ 1 := by
  induction evs with
  | nil =>
      intro s _ _ _
      simp [runFrom, terminalCount]
  | cons e evs ih =>
      intro s hmem hf hno
      rw [List.mem_cons] at hmem
      push_neg at hmem
      obtain ⟨hne, hmem⟩ := hmem
      simp only [noOverlapFrom, Bool.and_eq_true] at hno
      obtain ⟨hno1, hno2⟩ := hno
      cases e with
      | timerFire =>
          have h0 : s.inFlight = 0 := by
            simpa using hno1
          by_cases hI : s.intervalSet
          · have hstep : stepSkip s Ev.timerFire
                = ({ s with inFlight := s.inFlight + 1 }, none) := by
              simp [stepSkip, step, hI]
            rw [hstep] at hno2
            simp only [runFrom, hstep, Option.toList_none, List.nil_append]
            exact ih _ hmem (by simp [h0]) hno2
          · have hstep : stepSkip s Ev.timerFire = (s, none) := by
              simp [stepSkip, step, hI]
            rw [hstep] at hno2
            simp only [runFrom, hstep, Option.toList_none, List.nil_append]
            exact ih s hmem hf hno2
      | pollResolve r =>
          cases hn : s.inFlight with
          | zero =>
              have hstep : stepSkip s (Ev.pollResolve r) = (s, none) := by
                simp [stepSkip, step, hn]
              rw [hstep] at hno2
              simp only [runFrom, hstep, Option.toList_none, List.nil_append]
              exact ih s hmem hf hno2
          | succ n =>
              have hn0 : n = 0 := by omega
              subst hn0
              have hstep : stepSkip s (Ev.pollResolve r)
                  = ((checkProgressResolve { s with inFlight := 0 } r).1,
                     some (checkProgressResolve { s with inFlight := 0 } r).2) := by
                simp [stepSkip, step, hn]
              rw [hstep] at hno2
              rcases checkProgressResolve_cases { s with inFlight := 0 } r with
                ⟨ht, hs⟩ | ⟨ht, hs⟩
              · have hrest : (runFrom (checkProgressResolve { s with inFlight := 0 } r).1 evs).2
                    = [] := by
                  rw [hs]
                  exact runFrom_dead evs _ rfl rfl hmem
                simp only [runFrom, hstep, Option.toList_some, List.singleton_append]
                rw [terminalCount_cons, hrest]
                simp [ht, terminalCount]
              · simp only [runFrom, hstep, Option.toList_some, List.singleton_append]
                rw [terminalCount_cons, ht]
                simp only [if_false, Nat.zero_add, Bool.false_eq_true]
                rw [hs] at hno2 ⊢
                exact ih _ hmem (by simp) hno2
      | stopCall =>
          have hstep : stepSkip s Ev.stopCall = (stop s, none) := by
            simp [stepSkip, step]
          rw [hstep] at hno2
          simp only [runFrom, hstep, Option.toList_none, List.nil_append]
          exact ih (stop s) hmem (by simpa [stop_inFlight] using hf) hno2
      | startCall =>
          exact absurd rfl hne

/-- Once the interval is cleared, a run without a start call keeps the
interval cleared and never issues a new poll: every reached state is quiet
relative to any bound on the current in-flight count. -/
theorem statesFrom_bound (evs : List Ev) : ∀ (s : TrackerState) (B : Nat),
    s.intervalSet = false → s.inFlight ≤ B → Ev.startCall ∉ evs →
    allQuiet B (statesFrom s evs) = true := by
  induction evs with
  | nil =>
      intro s B _ _ _
      rfl
  | cons e evs ih =>
      intro s B hI hB hmem
      rw [List.mem_cons] at hmem
      push_neg at hmem
      obtain ⟨hne, hmem⟩ := hmem
      cases e with
      | timerFire =>
          have hstep : stepSkip s Ev.timerFire = (s, none) := by
            simp [stepSkip, step, hI]
          simp only [statesFrom, hstep, allQuiet, List.all_cons, Bool.and_eq_true]
          refine ⟨by simp [hI, hB], ?_⟩
          simpa [allQuiet] using ih s B hI hB hmem
      | pollResolve r =>
          cases hn : s.inFlight with
          | zero =>
              have hstep : stepSkip s (Ev.pollResolve r) = (s, none) := by
                simp [stepSkip, step, hn]
              simp only [statesFrom, hstep, allQuiet, List.all_cons, Bool.and_eq_true]
              refine ⟨by simp [hI, hB], ?_⟩
              simpa [allQuiet] using ih s B hI hB hmem
          | succ n =>
              have hstep : stepSkip s (Ev.pollResolve r)
                  = ((checkProgressResolve { s with inFlight := n } r).1,
                     some (checkProgressResolve { s with inFlight := n } r).2) := by
                simp [stepSkip, step, hn]
              have hn' : n ≤ B := by omega
              rcases checkProgressResolve_cases { s with inFlight := n } r with
                ⟨_, hs⟩ | ⟨_, hs⟩
              · simp only [statesFrom, hstep, allQuiet, List.all_cons, Bool.and_eq_true]
                constructor
                · rw [hs]
                  simp [stop, hn']
                · rw [hs]
                  simpa [allQuiet] using ih (stop { s with inFlight := n }) B rfl
                    (by simpa [stop_inFlight] using hn') hmem
              · simp only [statesFrom, hstep, allQuiet, List.all_cons, Bool.and_eq_true]
                constructor
                · rw [hs]
                  simp [hI, hn']
                · rw [hs]
                  simpa [allQuiet] using ih { s with inFlight := n } B hI (by simpa using hn') hmem
      | stopCall =>
          have hstep : stepSkip s Ev.stopCall = (stop s, none) := by
            simp [stepSkip, step]
          simp only [statesFrom, hstep, allQuiet, List.all_cons, Bool.and_eq_true]
          refine ⟨by simp [stop, hB], ?_⟩
          simpa [allQuiet] using ih (stop s) B rfl (by simpa [stop_inFlight] using hB) hmem
      | startCall =>
          exact absurd rfl hne

/-- A tracker event other than a start call never installs the interval. -/
theorem stepSkip_no_restart (t : TrackerState) (e : Ev) (he : e ≠ Ev.startCall)
    (h : t.intervalSet = false) : (stepSkip t e).1.intervalSet = false := by
  cases e with
  | timerFire =>
      simp [stepSkip, step, h]
  | pollResolve r =>
      cases hn : t.inFlight with
      | zero =>
          simp [stepSkip, step, hn, h]
      | succ n =>
          rcases checkProgressResolve_cases { t with inFlight := n } r with
            ⟨_, hs⟩ | ⟨_, hs⟩
          · simp only [stepSkip, step, hn]
            rw [Option.getD_some, hs]
            rfl
          · simp only [stepSkip, step, hn]
            rw [Option.getD_some, hs]
            exact h
  | stopCall =>
      simp [stepSkip, step, stop]
  | startCall =>
      exact absurd rfl he

/-- modifyAt with an interval-preserving function keeps a fully stopped list
fully stopped. -/
theorem modifyAt_all_stopped (f : TrackerState → TrackerState)
    (hf : ∀ t, t.intervalSet = false → (f t).intervalSet = false) :
    ∀ (n : Nat) (ts : List TrackerState),
      (ts.all fun t => !t.intervalSet) = true →
      ((modifyAt f n ts).all fun t => !t.intervalSet) = true := by
  intro n
  induction n with
  | zero =>
      intro ts h
      cases ts with
      | nil => rfl
      | cons t rest =>
          simp only [List.all_cons, Bool.and_eq_true] at h
          obtain ⟨h1, h2⟩ := h
          simp only [modifyAt, List.all_cons, Bool.and_eq_true]
          exact ⟨by simp [hf t (by simpa using h1)], h2⟩
  | succ n ih =>
      intro ts h
      cases ts with
      | nil => rfl
      | cons t rest =>
          simp only [List.all_cons, Bool.and_eq_true] at h
          obtain ⟨h1, h2⟩ := h
          simp only [modifyAt, List.all_cons, Bool.and_eq_true]
          exact ⟨h1, ih rest h2⟩

/-- modifyAt with an interval-preserving function keeps the list tail fully
stopped. -/
theorem modifyAt_tail_stopped (f : TrackerState → TrackerState)
    (hf : ∀ t, t.intervalSet = false → (f t).intervalSet = false)
    (i : Nat) (ts : List TrackerState)
    (h : (ts.tail.all fun t => !t.intervalSet) = true) :
    ((modifyAt f i ts).tail.all fun t => !t.intervalSet) = true := by
  cases ts with
  | nil =>
      cases i with
      | zero => rfl
      | succ n => rfl
  | cons t rest =>
      cases i with
      | zero =>
          simpa [modifyAt] using h
      | succ n =>
          simp only [modifyAt, List.tail_cons]
          exact modifyAt_all_stopped f hf n rest (by simpa using h)

/-- Every App step keeps all superseded trackers (the list tail) with their
interval cleared. -/
theorem appStep_tail_stopped (a : AppModel) (e : AppEv)
    (h : (a.trackers.tail.all fun t => !t.intervalSet) = true) :
    ((appStep a e).trackers.tail.all fun t => !t.intervalSet) = true := by
  cases e with
  | dispatchSuccess =>
      cases hts : a.trackers with
      | nil =>
          simp [appStep, trackProgress, hts]
      | cons t rest =>
          rw [hts] at h
          simp only [List.tail_cons] at h
          simp only [appStep, trackProgress, hts, List.tail_cons, List.all_cons,
            Bool.and_eq_true]
          exact ⟨by simp [stop], h⟩
  | newDownloadClick =>
      simpa [appStep, newDownloadClickHandler] using h
  | timerFire i =>
      simp only [appStep]
      exact modifyAt_tail_stopped _
        (fun u hu => stepSkip_no_restart u Ev.timerFire (by simp) hu) i a.trackers h
  | pollResolve i r =>
      simp only [appStep]
      exact modifyAt_tail_stopped _
        (fun u hu => stepSkip_no_restart u (Ev.pollResolve r) (by simp) hu) i a.trackers h

/-- The tail-stopped invariant holds along every App run. -/
theorem appRun_tail_stopped (evs : List AppEv) : ∀ a : AppModel,
    (a.trackers.tail.all fun t => !t.intervalSet) = true →
    (((evs.foldl appStep a).trackers.tail.all fun t => !t.intervalSet) = true) := by
  induction evs with
  | nil =>
      intro a h
      exact h
  | cons e evs ih =>
      intro a h
      exact ih (appStep a e) (appStep_tail_stopped a e h)

/-- If every tracker in the tail has its interval cleared, at most one
tracker in the whole list is polling. -/
theorem pollingCount_le_one (a : AppModel)
    (h : (a.trackers.tail.all fun t => !t.intervalSet) = true) :
    pollingCount a ≤ 1 := by
  cases hts : a.trackers with
  | nil =>
      simp [pollingCount, hts]
  | cons t rest =>
      rw [hts] at h
      simp only [List.tail_cons] at h
      have hrest : (rest.filter fun t => t.intervalSet) = [] := by
        rw [List.filter_eq_nil_iff]
        intro x hx
        have := List.all_eq_true.mp h x hx
        simpa using this
      by_cases hI : t.intervalSet
      · simp [pollingCount, hts, List.filter_cons, hI, hrest]
      · simp [pollingCount, hts, List.filter_cons, hI, hrest]

/-- Claim C1 counterexample: the claim that no callback fires once stop has
returned is false on the code.  Concrete interleaving: start issues the first
getStatus call; stop is called and returns while that call is in flight; the
call then resolves with a completed report, and the continuation of
checkProgress, which never re-reads isTracking, still invokes the onComplete
callback.  The in-flight result is delivered, not discarded. -/
theorem inflight_poll_delivers_after_stop :
    callbacksAfterStop initialTracker
        [Ev.startCall, Ev.stopCall, Ev.pollResolve (PollResult.ok reportCompleted)]
      = [CallbackEvent.complete reportCompleted] := by
  decide

/-- Claim C1 (amended): after stop returns, the interval is cleared and stays
cleared, and no new getStatus poll is ever issued, for any continuation of
the run that does not call start again: every subsequently reached state is
quiet (interval cleared, in-flight count never above its value at the moment
stop returned).  However a poll already in flight when stop was called still
delivers its callback when it resolves. -/
theorem post_stop_no_new_polls (s : TrackerState) (evs : List Ev)
    (hmem : Ev.startCall ∉ evs) :
    allQuiet (stop s).inFlight (statesFrom (stop s) evs) = true :=
  statesFrom_bound evs (stop s) (stop s).inFlight rfl le_rfl hmem

/-- Witness for post_stop_no_new_polls: a started tracker is stopped with its
first poll still in flight; a later timer firing and the poll resolution keep
every reached state quiet. -/
theorem post_stop_no_new_polls_witness :
    allQuiet (stop startedTracker).inFlight
        (statesFrom (stop startedTracker)
          [Ev.timerFire, Ev.pollResolve (PollResult.ok reportCompleted)]) = true :=
  post_stop_no_new_polls startedTracker
    [Ev.timerFire, Ev.pollResolve (PollResult.ok reportCompleted)] (by decide)

/-- Claim C2 counterexample: the claim that at most one getStatus query is
outstanding at any instant is false on the code.  Concrete interleaving:
start issues the first poll; one interval firing later, setInterval invokes
checkProgress again without waiting for the previous async call, and two
getStatus queries are in flight simultaneously. -/
theorem two_status_queries_outstanding :
    (runFrom initialTracker [Ev.startCall, Ev.timerFire]).1.inFlight = 2 := by
  decide

/-- Claim C2 (amended): polls are issued on the fixed interval regardless of
whether the previous poll has resolved: whenever the interval is installed, a
timer firing issues a new getStatus call on top of however many are already
outstanding, so a poll slower than the interval yields two or more
simultaneous queries. -/
theorem timer_issues_poll_regardless_of_outstanding (s : TrackerState)
    (h : s.intervalSet = true) :
    step s Ev.timerFire = some ({ s with inFlight := s.inFlight + 1 }, none) := by
  simp [step, h]

/-- Witness for timer_issues_poll_regardless_of_outstanding: on a freshly
started tracker, whose first poll is still outstanding, a timer firing issues
a second one. -/
theorem timer_issues_poll_regardless_of_outstanding_witness :
    step startedTracker Ev.timerFire
      = some ({ startedTracker with inFlight := startedTracker.inFlight + 1 }, none) :=
  timer_issues_poll_regardless_of_outstanding startedTracker (by decide)

/-- Claim C3 counterexample: the claim that the success and failure callbacks
fire together at most once in a tracker lifetime is false on the code.
Concrete interleaving: the first poll is slow, the interval fires and issues
a second poll, and both resolve with a completed report; each resolution runs
stop followed by onComplete, so the success callback fires twice. -/
theorem overlapping_polls_double_terminal :
    terminalCount (runFrom initialTracker
        [Ev.startCall, Ev.timerFire,
         Ev.pollResolve (PollResult.ok reportCompleted),
         Ev.pollResolve (PollResult.ok reportCompleted)]).2 = 2 := by
  decide

/-- Claim C3 (amended): as long as polls never overlap (every poll resolves
before the next interval firing, the single-flight discipline the spec
assumes) and start is not called again, a started tracker invokes the success
and failure callbacks together at most once in total across its whole run;
the at-most-once guarantee fails only when a poll outlives the interval. -/
theorem terminal_at_most_once_single_flight (evs : List Ev)
    (hmem : Ev.startCall ∉ evs)
    (hno : noOverlapFrom startedTracker evs = true) :
    terminalCount (runFrom startedTracker evs).2 ≤ 1 :=
  runFrom_singleFlight_terminal evs startedTracker hmem (by decide) hno

/-- Witness for terminal_at_most_once_single_flight: a run with one
intermediate update, a further timer firing, and a completed resolution emits
exactly one terminal callback, hence at most one. -/
theorem terminal_at_most_once_single_flight_witness :
    terminalCount (runFrom startedTracker
        [Ev.pollResolve (PollResult.ok reportDownloading), Ev.timerFire,
         Ev.pollResolve (PollResult.ok reportCompleted), Ev.timerFire]).2 ≤ 1 :=
  terminal_at_most_once_single_flight
    [Ev.pollResolve (PollResult.ok reportDownloading), Ev.timerFire,
     Ev.pollResolve (PollResult.ok reportCompleted), Ev.timerFire]
    (by decide) (by decide)

/-- Claim C4 counterexample: the claim that a new-download request stops any
live tracker defensively is false on the code.  Concrete run: a download is
dispatched and its tracker started, then the new-download button is clicked;
the handler only resets the UI, and the tracker referenced by
state.progressTracker is still tracking with its interval installed. -/
theorem new_download_leaves_tracker_polling :
    headTracking (appRun [AppEv.dispatchSuccess, AppEv.newDownloadClick]) = some true := by
  decide

/-- Claim C4 (amended): at most one ProgressTracker is polling at any
instant, for every sequence of dispatches, new-download clicks, timer
firings and poll resolutions: App.trackProgress stops the previously active
tracker before creating and starting a new one, and nothing else ever
installs an interval on an old instance.  This invariant is upheld by
trackProgress alone; the new-download handler only resets the UI and does
not stop a live tracker. -/
theorem at_most_one_tracker_polling (evs : List AppEv) :
    pollingCount (appRun evs) ≤ 1 :=
  pollingCount_le_one _ (appRun_tail_stopped evs initialApp rfl)

/-- Claim C5: each poll cycle classifies the status field of the report
returned by getStatus: a completed status moves the tracker to the stopped
state and emits the success callback with the final report; an error status
moves it to the stopped state and emits the failure callback with the
server-supplied error text or the default text; any other status emits the
progress callback and leaves the state, hence the installed interval,
unchanged, so polling continues; a transport failure of the poll moves the
tracker to the stopped state and emits the failure callback with the failure
message.  The stopped state has the interval cleared and isTracking false. -/
theorem poll_cycle_classification (s : TrackerState) (progress : StatusReport) (m : String) :
    (progress.status = "completed" →
      checkProgressResolve s (PollResult.ok progress)
        = (stop s, CallbackEvent.complete progress))
  ∧ (progress.status = "error" →
      checkProgressResolve s (PollResult.ok progress)
        = (stop s, CallbackEvent.failure (jsOr progress.error "Download failed")))
  ∧ (progress.status ≠ "completed" → progress.status ≠ "error" →
      checkProgressResolve s (PollResult.ok progress) = (s, CallbackEvent.update progress))
  ∧ checkProgressResolve s (PollResult.transportFail m) = (stop s, CallbackEvent.failure m)
  ∧ (stop s).intervalSet = false ∧ (stop s).isTracking = false := by
  refine ⟨?_, ?_, ?_, rfl, rfl, rfl⟩
  · intro h
    simp [checkProgressResolve, h]
  · intro h
    simp [checkProgressResolve, h]
  · intro h1 h2
    simp [checkProgressResolve, h1, h2]

/-- Witness for poll_cycle_classification at concrete reports of each
class. -/
theorem poll_cycle_classification_witness :
    checkProgressResolve startedTracker (PollResult.ok reportCompleted)
        = (stop startedTracker, CallbackEvent.complete reportCompleted)
  ∧ checkProgressResolve startedTracker (PollResult.ok reportErrored)
        = (stop startedTracker, CallbackEvent.failure (jsOr reportErrored.error "Download failed"))
  ∧ checkProgressResolve startedTracker (PollResult.ok reportDownloading)
        = (startedTracker, CallbackEvent.update reportDownloading)
  ∧ checkProgressResolve startedTracker (PollResult.transportFail "Failed to fetch")
        = (stop startedTracker, CallbackEvent.failure "Failed to fetch") :=
  ⟨(poll_cycle_classification startedTracker reportCompleted "x").1 rfl,
   (poll_cycle_classification startedTracker reportErrored "x").2.1 rfl,
   (poll_cycle_classification startedTracker reportDownloading "x").2.2.1
     (by decide) (by decide),
   (poll_cycle_classification startedTracker reportDownloading "Failed to fetch").2.2.2.1⟩

/-- Claim C6: the serialized startDownload request body for the audio type
omits the quality key entirely and carries audio_format with the fixed
default mp3; for the video type it carries the requested quality and omits
the audio_format key entirely.  The key lists show the omitted field is
absent from the request, not present with a null value. -/
theorem startDownload_body_field_presence (url q : String) :
    (stringifyBody (startDownloadBody url DOWNLOAD_TYPE_AUDIO q)).map Prod.fst
        = ["url", "type", "audio_format"]
  ∧ ("audio_format", DEFAULT_AUDIO_FORMAT)
        ∈ stringifyBody (startDownloadBody url DOWNLOAD_TYPE_AUDIO q)
  ∧ (stringifyBody (startDownloadBody url DOWNLOAD_TYPE_VIDEO q)).map Prod.fst
        = ["url", "type", "quality"]
  ∧ ("quality", q) ∈ stringifyBody (startDownloadBody url DOWNLOAD_TYPE_VIDEO q) := by
  refine ⟨?_, ?_, ?_, ?_⟩ <;>
    simp [stringifyBody, startDownloadBody, DOWNLOAD_TYPE_AUDIO, DOWNLOAD_TYPE_VIDEO,
      DEFAULT_AUDIO_FORMAT]

/-- Claim C7 counterexample: the claim that every non-success response yields
a failure whose message is the server error field when present and the text
Request failed otherwise is false on the code.  When the error body is not
valid JSON, the response.json call inside the non-ok branch rejects and that
parse exception is rethrown, so the message is the parse message of the
environment rather than Request failed; and when the error field is present
but empty, the falsy check replaces it with Request failed instead of using
it. -/
theorem gateway_error_message_not_uniform :
    apiGet "Unexpected token < in JSON at position 0"
        { ok := false, body := ResponseBody.parseFail }
      = ApiOutcome.failure "Unexpected token < in JSON at position 0"
  ∧ ("Unexpected token < in JSON at position 0" ≠ "Request failed")
  ∧ apiPost "Unexpected token < in JSON at position 0"
        { ok := false, body := ResponseBody.parseFail }
      = ApiOutcome.failure "Unexpected token < in JSON at position 0"
  ∧ apiGet "Unexpected token < in JSON at position 0"
        { ok := false, body := ResponseBody.obj (some "") }
      = ApiOutcome.failure "Request failed"
  ∧ ("Request failed" ≠ "") := by
  refine ⟨rfl, by decide, rfl, by decide, by decide⟩

/-- Claim C7 (amended): for every gateway GET or POST call receiving a
non-success transport response whose body parses as a JSON object, the call
fails with the single Error shape whose message is the server-supplied error
field when that field is present and non-empty (JavaScript truthiness) and
the generic Request failed text otherwise; when the body is not parseable
JSON, the call instead fails with the JSON parse exception of the
environment. -/
theorem gateway_uniform_error_json_body (parseMsg m : String) (hm : m ≠ "") :
    apiGet parseMsg { ok := false, body := ResponseBody.obj none }
        = ApiOutcome.failure "Request failed"
  ∧ apiGet parseMsg { ok := false, body := ResponseBody.obj (some "") }
        = ApiOutcome.failure "Request failed"
  ∧ apiGet parseMsg { ok := false, body := ResponseBody.obj (some m) }
        = ApiOutcome.failure m
  ∧ apiGet parseMsg { ok := false, body := ResponseBody.parseFail }
        = ApiOutcome.failure parseMsg
  ∧ apiPost parseMsg { ok := false, body := ResponseBody.obj none }
        = ApiOutcome.failure "Request failed"
  ∧ apiPost parseMsg { ok := false, body := ResponseBody.obj (some "") }
        = ApiOutcome.failure "Request failed"
  ∧ apiPost parseMsg { ok := false, body := ResponseBody.obj (some m) }
        = ApiOutcome.failure m
  ∧ apiPost parseMsg { ok := false, body := ResponseBody.parseFail }
        = ApiOutcome.failure parseMsg := by
  refine ⟨rfl, ?_, ?_, rfl, rfl, ?_, ?_, rfl⟩ <;> simp [apiGet, apiPost, jsOr, hm]

/-- Witness for gateway_uniform_error_json_body at a concrete non-empty
server error message. -/
theorem gateway_uniform_error_json_body_witness :
    ("boom" ≠ "")
  ∧ apiGet "SyntaxError" { ok := false, body := ResponseBody.obj (some "boom") }
      = ApiOutcome.failure "boom" :=
  ⟨by decide, (gateway_uniform_error_json_body "SyntaxError" "boom" (by decide)).2.2.1⟩

/-- Claim C8: a fetch-metadata request whose trimmed input URL is empty or is
rejected by the local validation never reaches the RequestGateway: the
handler shows a toast notice and returns before any network call. -/
theorem invalid_url_never_reaches_gateway (parses : String → Bool) (rawInput : String)
    (h : jsTrim rawInput = "" ∨ isValidUrl parses (jsTrim rawInput) = false) :
    (fetchVideoInfo parses rawInput).callsGateway = false
  ∧ (fetchVideoInfo parses rawInput = FetchInfoAction.notice "Please enter a URL"
      ∨ fetchVideoInfo parses rawInput = FetchInfoAction.notice "Please enter a valid URL") := by
  rcases h with h | h
  · simp [fetchVideoInfo, h, FetchInfoAction.callsGateway]
  · by_cases h0 : jsTrim rawInput = ""
    · simp [fetchVideoInfo, h0, FetchInfoAction.callsGateway]
    · simp [fetchVideoInfo, h0, h, FetchInfoAction.callsGateway]

/-- Witness for invalid_url_never_reaches_gateway on an input the URL
constructor rejects. -/
theorem invalid_url_never_reaches_gateway_witness :
    (fetchVideoInfo noParse "notaurl").callsGateway = false
  ∧ (fetchVideoInfo noParse "notaurl" = FetchInfoAction.notice "Please enter a URL"
      ∨ fetchVideoInfo noParse "notaurl" = FetchInfoAction.notice "Please enter a valid URL") :=
  invalid_url_never_reaches_gateway noParse "notaurl" (Or.inr rfl)

/-- Claim C9: UI.isValidUrl returns true exactly when the URL constructor
accepts the string and its length is at most CONFIG.MAX_URL_LENGTH (2048);
the try/catch makes it total, returning false for every input the
constructor rejects. -/
theorem isValidUrl_iff (parses : String → Bool) (url : String) :
    isValidUrl parses url = true
      ↔ (parses url = true ∧ url.length ≤ MAX_URL_LENGTH) := by
  by_cases h : parses url = true
  · simp [isValidUrl, h]
  · simp [isValidUrl, h]

/-- Claim C10: whenever a poll cycle classifies as terminal (completed
status, error status, or transport failure), stop has already run when the
terminal callback is invoked: the state paired with a terminal callback has
the interval cleared and isTracking false. -/
theorem tracker_stopped_when_terminal_callback_runs (s : TrackerState) (r : PollResult)
    (h : (checkProgressResolve s r).2.isTerminal = true) :
    (checkProgressResolve s r).1.intervalSet = false
      ∧ (checkProgressResolve s r).1.isTracking = false := by
  rcases checkProgressResolve_cases s r with ⟨_, hs⟩ | ⟨ht, _⟩
  · rw [hs]
    exact ⟨rfl, rfl⟩
  · rw [ht] at h
    exact Bool.noConfusion h

/-- Witness for tracker_stopped_when_terminal_callback_runs at a completed
resolution on a started tracker. -/
theorem tracker_stopped_when_terminal_callback_runs_witness :
    (checkProgressResolve startedTracker (PollResult.ok reportCompleted)).1.intervalSet = false
  ∧ (checkProgressResolve startedTracker (PollResult.ok reportCompleted)).1.isTracking = false :=
  tracker_stopped_when_terminal_callback_runs startedTracker
    (PollResult.ok reportCompleted) (by decide)

end Ytdl
